import Mathlib

/-!
Shallow embedding of the foundme repository (two Flask services:
`src/reconftw/api.py`, the ReconFTW tool API, and
`src/reconftw/people_api.py`, the FoundMe people-OSINT API).

External processes are opaque: each invocation is modelled by a
`ProcOutcome` input describing what the child process did (completed with
given stdout/stderr/exit code, timed out after producing some partial
output, or failed to start).  Request handlers become pure functions of
the request data, the rate-limit state and the process outcomes, returning
the HTTP status and JSON body fields they produce, together with the new
rate-limit state.  Wall-clock time (`time.time()`) is passed explicitly as
a natural number of seconds.
-/

namespace FoundMe

/-! ## Python string primitives

Structural re-implementations (over `String.data`) of the Python string
operations the two modules use, so that every definition evaluates by
kernel reduction: `str.split("\n")`, `str.strip()`, `str.lower()`,
substring membership (`pat in s`), whitespace `str.split()`, and
code-point string comparison (the order `sorted` uses). -/

/-- `s.split("\n")`: split on each newline, keeping empty pieces. -/
def splitLinesAux : List Char → List Char → List (List Char)
  | [], acc => [acc.reverse]
  | c :: cs, acc =>
      if c = '\n' then acc.reverse :: splitLinesAux cs []
      else splitLinesAux cs (c :: acc)

/-- `s.split("\n")` on strings. -/
def splitLines (s : String) : List String :=
  (splitLinesAux s.data []).map String.mk

/-- `s.strip()`: drop whitespace from both ends. -/
def trimStr (s : String) : String :=
  ⟨((s.data.dropWhile Char.isWhitespace).reverse.dropWhile Char.isWhitespace).reverse⟩

/-- `s.lower()`. -/
def lowerStr (s : String) : String :=
  ⟨s.data.map Char.toLower⟩

/-- Whether `pat` begins the character list `s`. -/
def leadsWith : List Char → List Char → Bool
  | [], _ => true
  | _ :: _, [] => false
  | p :: ps, c :: cs => p = c && leadsWith ps cs

/-- Whether `pat` occurs somewhere in the character list `s`. -/
def containsChars (pat : List Char) : List Char → Bool
  | [] => pat.isEmpty
  | c :: cs => leadsWith pat (c :: cs) || containsChars pat cs

/-- Python's `pat in s` substring test. -/
def containsStr (s pat : String) : Bool :=
  containsChars pat.data s.data

/-- Split on the characters satisfying `p`, dropping empty pieces (the
shape of Python's argumentless `str.split`). -/
def tokenizeAux (p : Char → Bool) : List Char → List Char → List (List Char)
  | [], acc => if acc.isEmpty then [] else [acc.reverse]
  | c :: cs, acc =>
      if p c then
        if acc.isEmpty then tokenizeAux p cs []
        else acc.reverse :: tokenizeAux p cs []
      else tokenizeAux p cs (c :: acc)

/-- `tokenizeAux` on strings, starting from an empty accumulator. -/
def tokenize (p : Char → Bool) (s : String) : List String :=
  (tokenizeAux p s.data []).map String.mk

/-- Code-point lexicographic order on character lists. -/
def lexLe : List Char → List Char → Bool
  | [], _ => true
  | _ :: _, [] => false
  | a :: as, b :: bs =>
      if a.toNat < b.toNat then true
      else if b.toNat < a.toNat then false
      else lexLe as bs

/-- Code-point lexicographic order on strings: how Python compares the
strings that `sorted` orders. -/
def strLe (a b : String) : Bool :=
  lexLe a.data b.data

/-- Behaviour of one external child process, supplied as an oracle input.
`timedOut` carries the stdout/stderr captured before the kill (Python's
`TimeoutExpired` exception exposes them, whether or not the caller uses
them); `failedToStart` stands for an exception raised before a process
existed (e.g. `FileNotFoundError`), with the exception text. -/
inductive ProcOutcome where
  | completed (stdout stderr : String) (returncode : Int)
  | timedOut (partialStdout partialStderr : String)
  | failedToStart (msg : String)
deriving DecidableEq, Repr

/-- `true` when the invocation did not complete (timed out or never
started): the strict sense of a failed sub-tool invocation. -/
def ProcOutcome.isFailure : ProcOutcome → Bool
  | .completed .. => false
  | _ => true

/-- The dictionary returned by `execute_command` in `api.py`: on normal
completion the four keys `success`/`stdout`/`stderr`/`returncode`; on
`TimeoutExpired` or any other exception only `success = False` and an
`error` message (absent keys are `none`). -/
structure CommandResult where
  success : Bool
  stdout : Option String
  stderr : Option String
  returncode : Option Int
  error : Option String
deriving DecidableEq, Repr

/-- `execute_command(cmd, timeout)` from `api.py` (lines 35-62): runs the
command via `subprocess.run(..., shell=True, capture_output=True,
timeout=timeout)`.  On completion it reports success with the captured
streams; on `TimeoutExpired` it returns only the error message (the
partial output carried by the exception is not read); any other exception
likewise yields only its message. -/
def execute_command (outcome : ProcOutcome) (timeout : Nat) : CommandResult :=
  match outcome with
  | .completed out err rc =>
      { success := true, stdout := some out, stderr := some err,
        returncode := some rc, error := none }
  | .timedOut _ _ =>
      { success := false, stdout := none, stderr := none, returncode := none,
        error := some ("Command timed out after " ++ toString timeout ++ " seconds") }
  | .failedToStart msg =>
      { success := false, stdout := none, stderr := none, returncode := none,
        error := some msg }

/-! ## Rate limiter (`people_api.py`, lines 26-53) -/

/-- One entry of the `RATE_LIMITS` dict: the mutable fields `calls`
(current window's count), `maxCalls` (budget) and `resetTime` (end of the
current window, seconds). -/
structure RateLimit where
  calls : Nat
  maxCalls : Nat
  resetTime : Nat
deriving DecidableEq, Repr

/-- The rate-limit table: tool name to window state, as an association
list standing for the Python dict (keys are unique). -/
abbrev RateTable := List (String × RateLimit)

/-- The initial `RATE_LIMITS` dict, built at module import time `t0`:
every `resetTime` is `t0 + 3600` (one hour ahead). -/
def RATE_LIMITS (t0 : Nat) : RateTable :=
  [("sherlock", ⟨0, 50, t0 + 3600⟩),
   ("theharvester", ⟨0, 30, t0 + 3600⟩),
   ("holehe", ⟨0, 100, t0 + 3600⟩),
   ("h8mail", ⟨0, 20, t0 + 3600⟩),
   ("maigret", ⟨0, 60, t0 + 3600⟩)]

/-- The window-reset step at the top of `check_rate_limit`: if
`time.time() > resetTime`, set `calls` to 0 and `resetTime` to one hour
from now, else leave the entry alone. -/
def windowedLimit (now : Nat) (l : RateLimit) : RateLimit :=
  if l.resetTime < now then ⟨0, l.maxCalls, now + 3600⟩ else l

/-- `check_rate_limit` restricted to one existing table entry: after the
window reset (if due), deny when `calls >= maxCalls`, otherwise increment
`calls` and allow.  Returns the decision and the entry's new state. -/
def checkLimit (now : Nat) (l : RateLimit) : Bool × RateLimit :=
  let l1 := windowedLimit now l
  if l1.maxCalls ≤ l1.calls then (false, l1)
  else (true, ⟨l1.calls + 1, l1.maxCalls, l1.resetTime⟩)

/-- Replace the value stored under `tool` (in-place dict-entry mutation);
entries under other keys are untouched. -/
def setEntry : RateTable → String → RateLimit → RateTable
  | [], _, _ => []
  | (k, w) :: rest, tool, v =>
      if k = tool then (k, v) :: setEntry rest tool v
      else (k, w) :: setEntry rest tool v

/-- `check_rate_limit(tool_name)` from `people_api.py` (lines 43-53),
with the mutable global `RATE_LIMITS` threaded explicitly: a tool with no
table entry is always allowed and nothing is written; otherwise the
entry's window is reset if stale, then the call is counted against the
budget. -/
def check_rate_limit (now : Nat) (tool : String) (table : RateTable) :
    Bool × RateTable :=
  match table.lookup tool with
  | none => (true, table)
  | some l =>
      let r := checkLimit now l
      (r.1, setEntry table tool r.2)

/-- A sequence of `n` consecutive `checkLimit` calls at a fixed time,
collecting the decisions and the final entry state. -/
def runChecks (now : Nat) : Nat → RateLimit → List Bool × RateLimit
  | 0, l => ([], l)
  | n + 1, l =>
      let r := checkLimit now l
      let rest := runChecks now n r.2
      (r.1 :: rest.1, rest.2)

/-! ## Tool registry and direct execution (`api.py`) -/

/-- One piece of an `args_template` string: literal text, or a named
placeholder (`Var k` stands for the braced occurrence of `k` that
`str.format` substitutes). -/
inductive TPart where
  | lit (s : String)
  | var (name : String)
deriving DecidableEq, Repr

/-- The `TOOLS` dict of `api.py` (lines 18-33): tool name to `cmd` and
`args_template`, the template split into literal and placeholder parts. -/
def TOOLS : List (String × String × List TPart) :=
  [("subfinder", "subfinder", [.lit "-d ", .var "domain", .lit " -silent"]),
   ("assetfinder", "assetfinder", [.lit "--subs-only ", .var "domain"]),
   ("nmap", "nmap", [.lit "-sS -sV -p ", .var "ports", .lit " ", .var "target"]),
   ("nuclei", "nuclei", [.lit "-u ", .var "url", .lit " -silent"]),
   ("dnsx", "dnsx", [.lit "-d ", .var "domain", .lit " -silent"]),
   ("ffuf", "ffuf", [.lit "-u ", .var "url", .lit " -w /usr/share/wordlists/common.txt"]),
   ("gobuster", "gobuster", [.lit "dir -u ", .var "url", .lit " -w /usr/share/wordlists/common.txt"]),
   ("wayback", "waybackpy", [.lit "--url ", .var "url", .lit " --known_urls"]),
   ("whois", "whois", [.var "domain"]),
   ("dig", "dig", [.var "domain", .lit " ANY"]),
   ("dirsearch", "python3", [.lit "/opt/reconftw/dirsearch/dirsearch.py -u ", .var "url"]),
   ("ctfr", "python3", [.lit "/opt/reconftw/ctfr/ctfr.py -d ", .var "domain"]),
   ("gitdorks", "python3", [.lit "/opt/reconftw/GitDorker/GitDorker.py -tf ", .var "target"]),
   ("s3scanner", "s3scanner", [.var "target"])]

/-- `args_template.format(**data)`: substitute each placeholder with the
caller's raw value, concatenating into one string; a placeholder absent
from `data` raises `KeyError` with that key (the first missing one, left
to right). -/
def formatTemplate : List TPart → List (String × String) → Except String String
  | [], _ => .ok ""
  | .lit s :: rest, params => (formatTemplate rest params).map (fun t => s ++ t)
  | .var k :: rest, params =>
      match params.lookup k with
      | none => .error k
      | some v => (formatTemplate rest params).map (fun t => v ++ t)

/-- The line filter shared by `execute_tool` (lines 119-124) and
`discover_subdomains` (lines 167-171, 179-183): split stdout on newlines,
keep the lines that are non-blank after stripping and contain a dot, and
strip each survivor. -/
def parseLines (s : String) : List String :=
  ((splitLines s).filter (fun l => trimStr l != "" && l.data.contains '.')).map
    (fun l => trimStr l)

/-- The JSON body and HTTP status produced by `execute_tool` in `api.py`
(lines 96-141), plus a `spawned` flag recording whether an external
process was started for the request.  On the `KeyError` path (missing
placeholder) Python answers 500 with `str(e)`, which is the missing key
wrapped in single quote marks; `error` records the key itself. -/
structure ApiExecResponse where
  status : Nat
  success : Bool
  command : Option String
  output : Option String
  errorMsg : Option String
  parsed_output : Option (List String)
  returncode : Option Int
  spawned : Bool
deriving DecidableEq, Repr

/-- `execute_tool(tool_name)` from `api.py` (lines 96-141): unknown tool
answers 400; then the template is formatted with the request data (a
missing placeholder raises `KeyError`, caught by the generic handler,
answering 500 before any process starts); otherwise the single string
`cmd + " " + args` is handed to `execute_command` (which runs it with
`shell=True`) and the handler answers 200 whatever the run's outcome,
parsing subdomain-like lines for `subfinder`/`assetfinder`. -/
def executeToolA (toolName : String) (data : List (String × String))
    (outcome : ProcOutcome) : ApiExecResponse :=
  match TOOLS.lookup toolName with
  | none =>
      { status := 400, success := false, command := none, output := none,
        errorMsg := some ("Tool " ++ toolName ++ " not supported"),
        parsed_output := none, returncode := none, spawned := false }
  | some (cmd, tmpl) =>
      match formatTemplate tmpl data with
      | .error key =>
          { status := 500, success := false, command := none, output := none,
            errorMsg := some key, parsed_output := none, returncode := none,
            spawned := false }
      | .ok args =>
          let fullCommand := cmd ++ " " ++ args
          let r := execute_command outcome 300
          let output := r.stdout.getD ""
          let parsed :=
            if (toolName == "subfinder" || toolName == "assetfinder") && output != ""
            then some (parseLines output) else none
          { status := 200, success := r.success, command := some fullCommand,
            output := some output, errorMsg := some (r.stderr.getD ""),
            parsed_output := parsed, returncode := r.returncode,
            spawned := match outcome with | .failedToStart _ => false | _ => true }

/-! ## Subdomain discovery (`api.py`, lines 143-201) -/

/-- Insert a string into a list so that an already ascending list stays
ascending (string order is code-point lexicographic, as in Python). -/
def insertSorted (x : String) : List String → List String
  | [] => [x]
  | y :: ys => if strLe x y then x :: y :: ys else y :: insertSorted x ys

/-- Insertion sort on strings: the model of Python's `sorted` (on a
duplicate-free list both produce the unique ascending reordering). -/
def sortStrings : List String → List String
  | [] => []
  | x :: xs => insertSorted x (sortStrings xs)

/-- `sorted(list(set(subfinder + assetfinder)))` (line 188-189): the
deduplicated union of both tools' line lists, sorted. -/
def combineSubdomains (l1 l2 : List String) : List String :=
  sortStrings ((l1 ++ l2).dedup)

/-- The `results` dict built by `discover_subdomains`. -/
structure SubdomainResults where
  domain : String
  subfinder : List String
  assetfinder : List String
  combined : List String
deriving DecidableEq, Repr

/-- The response of `discover_subdomains`. -/
structure DiscoverResponse where
  status : Nat
  success : Bool
  results : Option SubdomainResults
  errorMsg : Option String
deriving DecidableEq, Repr

/-- `discover_subdomains` from `api.py` (lines 143-201): a missing or
empty (falsy) `domain` answers 400 before anything runs; otherwise
subfinder and assetfinder are each run under `execute_command` with a
180-second timeout, each contributing its parsed lines only when its run
reported success (exceptions and timeouts leave that tool's list empty),
and the combined list is the sorted deduplicated union.  The handler
always answers 200 with `success = True` once validation passed. -/
def discover_subdomains (domain : Option String)
    (subfinderOutcome assetfinderOutcome : ProcOutcome) : DiscoverResponse :=
  match domain with
  | none =>
      { status := 400, success := false, results := none,
        errorMsg := some "Domain parameter is required" }
  | some d =>
      if d = "" then
        { status := 400, success := false, results := none,
          errorMsg := some "Domain parameter is required" }
      else
        let r1 := execute_command subfinderOutcome 180
        let sub := if r1.success then parseLines (r1.stdout.getD "") else []
        let r2 := execute_command assetfinderOutcome 180
        let asset := if r2.success then parseLines (r2.stdout.getD "") else []
        { status := 200, success := true,
          results := some ⟨d, sub, asset, combineSubdomains sub asset⟩,
          errorMsg := none }

/-! ## People OSINT endpoints (`people_api.py`) -/

/-- The `PEOPLE_TOOLS` dict (lines 17-23): tool name to wrapper-script
path (`TOOLS_DIR` is `/opt/people-osint`). -/
def PEOPLE_TOOLS : List (String × String) :=
  [("sherlock", "/opt/people-osint/sherlock_wrapper.sh"),
   ("theharvester", "/opt/people-osint/theharvester_wrapper.sh"),
   ("holehe", "/opt/people-osint/holehe_wrapper.sh"),
   ("h8mail", "/opt/people-osint/h8mail_wrapper.sh"),
   ("maigret", "/opt/people-osint/maigret_wrapper.sh")]

/-- `parse_h8mail_output` (lines 281-288): keep every line whose
lower-casing mentions "breach" or "leak", stripped, in order. -/
def parse_h8mail_output (output : String) : List String :=
  ((splitLines output).filter
      (fun l => containsStr (lowerStr l) "breach" || containsStr (lowerStr l) "leak")).map
    (fun l => trimStr l)

/-- `parse_holehe_output` (lines 290-297): keep every line whose
lower-casing mentions "found" or "exists", stripped, in order. -/
def parse_holehe_output (output : String) : List String :=
  ((splitLines output).filter
      (fun l => containsStr (lowerStr l) "found" || containsStr (lowerStr l) "exists")).map
    (fun l => trimStr l)

/-- A generic people-API JSON response: HTTP status, `success`, the
`output` field when present, and the `error` field when present. -/
structure ToolResponse where
  status : Nat
  success : Bool
  output : Option String
  errorMsg : Option String
deriving DecidableEq, Repr

/-- The `results` dict of `email_search`. -/
structure EmailResults where
  email : String
  breaches : List String
  accounts : List String
deriving DecidableEq, Repr

/-- The response of `email_search`. -/
structure EmailSearchResponse where
  status : Nat
  success : Bool
  results : Option EmailResults
  errorMsg : Option String
deriving DecidableEq, Repr

/-- The record-set contribution of one tool run inside `email_search`: a
parser applied to stdout when the run completed with exit code 0,
otherwise the empty list (non-zero exit falls through; timeouts and other
exceptions hit the bare `except: pass`). -/
def toolContribution (parse : String → List String) (allowed : Bool)
    (o : ProcOutcome) : List String :=
  if allowed then
    match o with
    | .completed out _ rc => if rc = 0 then parse out else []
    | _ => []
  else []

/-- `email_search` from `people_api.py` (lines 137-180): a falsy `email`
answers 400; otherwise h8mail runs only if its rate check allows (its
failure is swallowed, leaving `breaches` empty), then holehe likewise for
`accounts`, and the handler always answers 200 with `success = True`.
Both rate checks always run, in that order, against the shared table. -/
def email_search (email : Option String) (now : Nat) (table : RateTable)
    (h8mailOutcome holeheOutcome : ProcOutcome) :
    EmailSearchResponse × RateTable :=
  match email with
  | none =>
      ({ status := 400, success := false, results := none,
         errorMsg := some "Email is required" }, table)
  | some e =>
      if e = "" then
        ({ status := 400, success := false, results := none,
           errorMsg := some "Email is required" }, table)
      else
        let c1 := check_rate_limit now "h8mail" table
        let breaches := toolContribution parse_h8mail_output c1.1 h8mailOutcome
        let c2 := check_rate_limit now "holehe" c1.2
        let accounts := toolContribution parse_holehe_output c2.1 holeheOutcome
        ({ status := 200, success := true,
           results := some ⟨e, breaches, accounts⟩, errorMsg := none }, c2.2)

/-- `phone_search` from `people_api.py` (lines 182-215): a falsy `phone`
answers 400; then the rate check for "phoneinfoga" gates the call (denial
answers 429); the wrapper run answers 200 on exit code 0, else 500 with
stderr; any exception — `TimeoutExpired` included, since there is no
specific handler — answers 500 with the exception text (for a timeout we
record the fixed text "timed out"). -/
def phone_search (phone : Option String) (now : Nat) (table : RateTable)
    (outcome : ProcOutcome) : ToolResponse × RateTable :=
  match phone with
  | none =>
      ({ status := 400, success := false, output := none,
         errorMsg := some "Phone number is required" }, table)
  | some p =>
      if p = "" then
        ({ status := 400, success := false, output := none,
           errorMsg := some "Phone number is required" }, table)
      else
        let c := check_rate_limit now "phoneinfoga" table
        if c.1 then
          match outcome with
          | .completed out err rc =>
              if rc = 0 then
                ({ status := 200, success := true, output := some out,
                   errorMsg := none }, c.2)
              else
                ({ status := 500, success := false, output := none,
                   errorMsg := some err }, c.2)
          | .timedOut _ _ =>
              ({ status := 500, success := false, output := none,
                 errorMsg := some "timed out" }, c.2)
          | .failedToStart msg =>
              ({ status := 500, success := false, output := none,
                 errorMsg := some msg }, c.2)
        else
          ({ status := 429, success := false, output := none,
             errorMsg := some "Rate limit exceeded for phone search" }, c.2)

/-- Python `args.split()`: split on whitespace runs, dropping empties. -/
def splitWs (s : String) : List String :=
  tokenize Char.isWhitespace s

/-- `execute_tool(tool_name)` from `people_api.py` (lines 312-355): an
unknown tool answers 404; a denied rate check answers 429 with no process
spawned; otherwise `command_parts` is the wrapper path followed by the
whitespace-split `args`, run as an argument vector, answering 200 on exit
code 0, 500 with stderr on non-zero exit, 408 on `TimeoutExpired`, 500 on
any other exception.  The third component is the argument vector of the
spawned process, or `none` when no process was started. -/
def executeToolP (toolName args : String) (now : Nat) (table : RateTable)
    (outcome : ProcOutcome) : ToolResponse × RateTable × Option (List String) :=
  match PEOPLE_TOOLS.lookup toolName with
  | none =>
      ({ status := 404, success := false, output := none,
         errorMsg := some "Tool not found" }, table, none)
  | some toolPath =>
      let c := check_rate_limit now toolName table
      if c.1 then
        let commandParts := toolPath :: (if args != "" then splitWs args else [])
        match outcome with
        | .completed out err rc =>
            if rc = 0 then
              ({ status := 200, success := true, output := some out,
                 errorMsg := none }, c.2, some commandParts)
            else
              ({ status := 500, success := false, output := none,
                 errorMsg := some err }, c.2, some commandParts)
        | .timedOut _ _ =>
            ({ status := 408, success := false, output := none,
               errorMsg := some "Tool execution timed out" }, c.2, some commandParts)
        | .failedToStart msg =>
            ({ status := 500, success := false, output := none,
               errorMsg := some msg }, c.2, none)
      else
        ({ status := 429, success := false, output := none,
           errorMsg := some ("Rate limit exceeded for " ++ toolName) }, c.2, none)

/-! ## Risk scoring (`people_api.py`, lines 299-310) -/

/-- One entry of `full_profile_search`'s `social_accounts` list (the
account dicts produced by the sherlock parsing). -/
structure AccountRec where
  platform : String
  url : String
  username : String
  status : String
deriving DecidableEq, Repr

/-- The parts of the `results` dict that `calculate_risk_score` reads:
`results["social_accounts"]` and `results["emails"]["breaches"]`. -/
structure ProfileResults where
  social_accounts : List AccountRec
  email_breaches : List String
deriving DecidableEq, Repr

/-- `calculate_risk_score` (lines 299-310): 5 points per entry of the
social-accounts list plus 20 points per entry of the breaches list
(lengths, duplicates counted), capped at 100 by `min(score, 100)`. -/
def calculate_risk_score (results : ProfileResults) : Nat :=
  min (results.social_accounts.length * 5 + results.email_breaches.length * 20) 100

/-! ## Reference constructions written from the specification

These two definitions follow the specification's words, not the source:
they are the comparison points for the command-construction claim. -/

/-- Split a string on single spaces, dropping empty pieces: the field
splitting a POSIX shell applies to an unquoted command string (before any
metacharacter interpretation). -/
def shellFieldSplit (s : String) : List String :=
  tokenize (fun c => c = ' ') s

/-- Reference construction following the specification: argument-vector
command construction, the executable followed by the template's tokens,
where literal template text contributes its space-separated words and
each parameter value is passed through as one discrete, non-interpreted
token. -/
def argvTokens : List TPart → List (String × String) → Except String (List String)
  | [], _ => .ok []
  | .lit s :: rest, params =>
      (argvTokens rest params).map (fun t => shellFieldSplit s ++ t)
  | .var k :: rest, params =>
      match params.lookup k with
      | none => .error k
      | some v => (argvTokens rest params).map (fun t => v :: t)

/-- The full argument vector of the specification's reference
construction: executable first, then the rendered tokens. -/
def specArgvCommand (cmd : String) (tmpl : List TPart)
    (params : List (String × String)) : Except String (List String) :=
  (argvTokens tmpl params).map (fun t => cmd :: t)

/-- Risk score as the specification words it: 5 points per distinct
account match plus 20 points per distinct breach event, clamped to
[0,100] (distinctness via `dedup`). -/
def riskScoreSpec (results : ProfileResults) : Nat :=
  min (results.social_accounts.dedup.length * 5 +
    results.email_breaches.dedup.length * 20) 100

/-! ## Helper lemmas -/

/-- Within the current window (`resetTime` not passed), a check is a plain
counter test: deny at the budget, else count the call. -/
lemma checkLimit_steady (now : Nat) (l : RateLimit) (h : ¬ l.resetTime < now) :
    checkLimit now l =
      if l.maxCalls ≤ l.calls then (false, l)
      else (true, ⟨l.calls + 1, l.maxCalls, l.resetTime⟩) := by
  simp only [checkLimit, windowedLimit, if_neg h]

/-- Closed form of a run of in-window checks: starting from `c` used
calls, the first `N - c` decisions are allowed and the rest denied, and
the counter ends at `c + min k (N - c)`. -/
lemma runChecks_steady (now t : Nat) (h : ¬ t < now) :
    ∀ (k c N : Nat), runChecks now k ⟨c, N, t⟩ =
      (List.replicate (min k (N - c)) true ++ List.replicate (k - (N - c)) false,
        ⟨c + min k (N - c), N, t⟩)
  | 0, c, N => by simp [runChecks]
  | k + 1, c, N => by
      by_cases hc : N ≤ c
      · have h0 : N - c = 0 := Nat.sub_eq_zero_of_le hc
        simp [runChecks, checkLimit_steady now ⟨c, N, t⟩ h, if_pos hc,
          runChecks_steady now t h k c N, h0, List.replicate_succ]
      · have h1 : N - c = (N - (c + 1)) + 1 := by omega
        have h2 : min (k + 1) (N - c) = min k (N - (c + 1)) + 1 := by
          rw [h1, Nat.succ_min_succ]
        have h3 : (k + 1) - (N - c) = k - (N - (c + 1)) := by omega
        simp [runChecks, checkLimit_steady now ⟨c, N, t⟩ h, if_neg hc,
          runChecks_steady now t h k (c + 1) N, h2, h3, List.replicate_succ]
        omega

/-- `setEntry` changes no other tool's binding. -/
lemma lookup_setEntry_ne {other tool : String} (v : RateLimit)
    (hne : other ≠ tool) :
    ∀ table : RateTable, (setEntry table tool v).lookup other = table.lookup other
  | [] => rfl
  | (k, w) :: rest => by
      have hrest := lookup_setEntry_ne v hne rest
      by_cases hk : k = tool
      · have hok : (other == k) = false := by
          subst hk; exact beq_eq_false_iff_ne.mpr hne
        simp [setEntry, if_pos hk, List.lookup, hok, hrest]
      · simp only [setEntry, if_neg hk, List.lookup]
        cases hok : other == k
        · simp [hrest]
        · rfl

/-- A failed invocation (timed out or never started) reports
`success = False` from `execute_command`. -/
lemma execute_command_failure (o : ProcOutcome) (h : o.isFailure = true)
    (t : Nat) : (execute_command o t).success = false := by
  cases o <;> simp_all [execute_command, ProcOutcome.isFailure]

/-- A failed invocation contributes no records inside `email_search`. -/
lemma toolContribution_failure (parse : String → List String) (b : Bool)
    (o : ProcOutcome) (h : o.isFailure = true) :
    toolContribution parse b o = [] := by
  cases o <;> simp_all [toolContribution, ProcOutcome.isFailure]

/-- Inserting into the sorted list is a permutation of consing. -/
lemma insertSorted_perm (x : String) :
    ∀ l : List String, (insertSorted x l).Perm (x :: l)
  | [] => List.Perm.refl _
  | y :: ys => by
      by_cases h : strLe x y
      · simp [insertSorted, h]
      · simp only [insertSorted, if_neg h]
        exact ((insertSorted_perm x ys).cons y).trans (List.Perm.swap x y ys)

/-- Insertion sort permutes its input. -/
lemma sortStrings_perm : ∀ l : List String, (sortStrings l).Perm l
  | [] => List.Perm.refl _
  | x :: xs =>
      (insertSorted_perm x (sortStrings xs)).trans ((sortStrings_perm xs).cons x)

/-- The combined subdomain list has exactly the members of the two
tools' lists. -/
lemma mem_combineSubdomains (x : String) (l1 l2 : List String) :
    x ∈ combineSubdomains l1 l2 ↔ x ∈ l1 ∨ x ∈ l2 := by
  unfold combineSubdomains
  rw [(sortStrings_perm _).mem_iff, List.mem_dedup, List.mem_append]

/-- The combined subdomain list holds no exact duplicates. -/
lemma combineSubdomains_nodup (l1 l2 : List String) :
    (combineSubdomains l1 l2).Nodup :=
  (sortStrings_perm _).nodup_iff.mpr (List.nodup_dedup _)

/-! ## Claim theorems -/

/-- Claim C1: the claim says every caller-supplied parameter value reaches
the external process as one literal argument-vector token, never
interpolated into a shell command line.  The code violates this: for the
request `execute_tool("subfinder")` with `domain = "example.com; echo
pwned"`, `execute_tool` interpolates the raw value into the single string
`subfinder -d example.com; echo pwned -silent` and runs it with
`shell=True`, so the executed command differs from the argument-vector
reference construction (the value is one token there, but the shell's
field splitting breaks it apart), and the parameter has injected a `;`
shell metacharacter into the command line. -/
theorem executeTool_shell_string_not_argv :
    (executeToolA "subfinder" [("domain", "example.com; echo pwned")]
        (.completed "" "" 0)).command =
      some "subfinder -d example.com; echo pwned -silent"
  ∧ specArgvCommand "subfinder" [.lit "-d ", .var "domain", .lit " -silent"]
        [("domain", "example.com; echo pwned")] =
      .ok ["subfinder", "-d", "example.com; echo pwned", "-silent"]
  ∧ shellFieldSplit "subfinder -d example.com; echo pwned -silent" ≠
      ["subfinder", "-d", "example.com; echo pwned", "-silent"]
  ∧ containsStr "subfinder -d example.com; echo pwned -silent" ";" = true
  ∧ containsStr "subfinder -d  -silent" ";" = false
  ∧ TOOLS.lookup "subfinder" =
      some ("subfinder", [.lit "-d ", .var "domain", .lit " -silent"]) :=
  ⟨by decide, by rfl, by decide, by decide, by decide, by rfl⟩

/-- Claim C2: for a tool with budget `N`, in-window checks allow the
first `N` calls and deny every later one, the counter ending at
`min k N`; a check made after `resetTime` has passed first resets the
entry to zero calls and `now + 3600` before deciding; and the table-level
`check_rate_limit` is exactly the per-entry check written back into the
table. -/
theorem check_rate_limit_window_spec (N t now k : Nat) (hw : now ≤ t)
    (l : RateLimit) (hr : l.resetTime < now)
    (table : RateTable) (tool : String) (l0 : RateLimit)
    (ht : table.lookup tool = some l0) :
    (runChecks now k ⟨0, N, t⟩).1 =
        List.replicate (min k N) true ++ List.replicate (k - N) false
  ∧ (runChecks now k ⟨0, N, t⟩).2 = ⟨min k N, N, t⟩
  ∧ checkLimit now l = checkLimit now ⟨0, l.maxCalls, now + 3600⟩
  ∧ check_rate_limit now tool table =
      ((checkLimit now l0).1, setEntry table tool (checkLimit now l0).2) := by
  have hnt : ¬ t < now := Nat.not_lt.mpr hw
  refine ⟨?_, ?_, ?_, ?_⟩
  · simpa using congrArg Prod.fst (runChecks_steady now t hnt k 0 N)
  · simpa using congrArg Prod.snd (runChecks_steady now t hnt k 0 N)
  · simp [checkLimit, windowedLimit, if_pos hr, Nat.not_lt.mpr (Nat.le_add_right now 3600)]
  · simp [check_rate_limit, ht]

/-- Witness for C2 at concrete inputs (budget 2, four checks at time 50
inside a window ending at 100; a stale entry whose window ended at 30;
the sherlock entry of the startup table). -/
theorem check_rate_limit_window_spec_witness :
    (runChecks 50 4 ⟨0, 2, 100⟩).1 =
        List.replicate (min 4 2) true ++ List.replicate (4 - 2) false
  ∧ (runChecks 50 4 ⟨0, 2, 100⟩).2 = ⟨min 4 2, 2, 100⟩
  ∧ checkLimit 50 ⟨7, 9, 30⟩ = checkLimit 50 ⟨0, 9, 50 + 3600⟩
  ∧ check_rate_limit 50 "sherlock" (RATE_LIMITS 0) =
      ((checkLimit 50 ⟨0, 50, 3600⟩).1,
        setEntry (RATE_LIMITS 0) "sherlock" (checkLimit 50 ⟨0, 50, 3600⟩).2) :=
  check_rate_limit_window_spec 2 100 50 4 (by decide) ⟨7, 9, 30⟩ (by decide)
    (RATE_LIMITS 0) "sherlock" ⟨0, 50, 3600⟩ (by rfl)

/-- Claim C3, counterexample: the claim says the output captured before a
timeout kill is still present in the returned result.  It is not: a run
that times out with partial stdout already captured returns a result
whose stdout field is absent (`execute_command` answers only `success =
False` and the timeout message, reading nothing from the
`TimeoutExpired` exception). -/
theorem execute_command_timeout_drops_output :
    (execute_command (.timedOut "partial output" "partial err") 300).success = false
  ∧ (execute_command (.timedOut "partial output" "partial err") 300).error =
      some "Command timed out after 300 seconds"
  ∧ (execute_command (.timedOut "partial output" "partial err") 300).stdout ≠
      some "partial output"
  ∧ (execute_command (.timedOut "partial output" "partial err") 300).stdout = none :=
  ⟨by decide, by decide, by decide, by decide⟩

/-- Claim C3 as amended: a tool invocation whose process has not
completed by the timeout yields a result with `succeeded = false` and a
timeout failure reason (HTTP 408 on the people API's direct execution
endpoint), but the stdout/stderr captured before termination is
discarded, not returned: the result carries no stdout, no stderr and no
exit code, whatever the partial output was. -/
theorem execute_command_timeout_result (po pe : String) (t : Nat) :
    execute_command (.timedOut po pe) t =
      { success := false, stdout := none, stderr := none, returncode := none,
        error := some ("Command timed out after " ++ toString t ++ " seconds") }
  ∧ (executeToolP "sherlock" "" 0 (RATE_LIMITS 0) (.timedOut po pe)).1 =
      { status := 408, success := false, output := none,
        errorMsg := some "Tool execution timed out" } :=
  ⟨rfl, rfl⟩

/-- Claim C4, counterexample: the claim says each failed tool contributes
an empty record set.  A tool whose process completes with a nonzero exit
code — a failed invocation (the spec's `runtime_error`) — still has its
stdout parsed by the subdomain handler, because `execute_command` reports
`success: True` for any completed run regardless of exit code: subfinder
exiting with code 2 while printing `evil.example.com` contributes that
record to its per-tool list and to the combined set. -/
theorem discover_parses_nonzero_exit :
    (execute_command (.completed "evil.example.com\n" "" 2) 180).success = true
  ∧ (discover_subdomains (some "example.com")
        (.completed "evil.example.com\n" "" 2) (.timedOut "" "")).results =
      some ⟨"example.com", ["evil.example.com"], [], ["evil.example.com"]⟩
  ∧ (2 : Int) ≠ 0
  ∧ ["evil.example.com"] ≠ ([] : List String) :=
  ⟨by decide, by decide, by decide, by decide⟩

/-- Claim C4 as amended: an aggregated query that passes input validation
always answers 200 with `success = True`, covering every requested tool,
whatever each tool's outcome — never an error response.  A tool whose
invocation timed out or never started contributes an empty record set,
and when every tool fails that way the subdomain query returns empty
per-tool and combined lists, the email query returns empty breach and
account lists, and the risk score of the all-empty profile is 0.  A tool
whose process completed with a nonzero exit code, however, is treated as
successful by the subdomain handler and can contribute non-empty records
(see the counterexample); the email handler does test the exit code, so
there a nonzero-exit tool also contributes an empty set. -/
theorem aggregation_all_failures_graceful (d e : String)
    (hd : d ≠ "") (he : e ≠ "") (now : Nat) (table : RateTable)
    (o1 o2 o3 o4 p1 p2 p3 p4 : ProcOutcome)
    (h1 : o1.isFailure = true) (h2 : o2.isFailure = true)
    (h3 : o3.isFailure = true) (h4 : o4.isFailure = true)
    (out err : String) (rc : Int) (hrc : rc ≠ 0) :
    (discover_subdomains (some d) p1 p2).status = 200
  ∧ (discover_subdomains (some d) p1 p2).success = true
  ∧ (email_search (some e) now table p3 p4).1.status = 200
  ∧ (email_search (some e) now table p3 p4).1.success = true
  ∧ discover_subdomains (some d) o1 o2 =
      { status := 200, success := true, results := some ⟨d, [], [], []⟩,
        errorMsg := none }
  ∧ (email_search (some e) now table o3 o4).1 =
      { status := 200, success := true, results := some ⟨e, [], []⟩,
        errorMsg := none }
  ∧ calculate_risk_score ⟨[], []⟩ = 0
  ∧ (email_search (some e) now table (.completed out err rc)
        (.completed out err rc)).1.results = some ⟨e, [], []⟩ := by
  refine ⟨?_, ?_, ?_, ?_, ?_, ?_, rfl, ?_⟩
  · simp [discover_subdomains, if_neg hd]
  · simp [discover_subdomains, if_neg hd]
  · simp [email_search, if_neg he]
  · simp [email_search, if_neg he]
  · simp [discover_subdomains, if_neg hd, execute_command_failure o1 h1,
      execute_command_failure o2 h2, combineSubdomains, sortStrings, List.dedup]
  · simp [email_search, if_neg he, toolContribution_failure _ _ _ h3,
      toolContribution_failure _ _ _ h4]
  · simp [email_search, if_neg he, toolContribution, hrc]

/-- Witness for C4: both queries with every tool timing out or failing to
start, arbitrary-outcome slots filled with a nonzero-exit completion and
a timeout, and a nonzero-exit email pair. -/
theorem aggregation_all_failures_graceful_witness :
    (discover_subdomains (some "example.com") (.completed "x.y\n" "" 2)
        (.timedOut "" "")).status = 200
  ∧ (discover_subdomains (some "example.com") (.completed "x.y\n" "" 2)
        (.timedOut "" "")).success = true
  ∧ (email_search (some "a@b.c") 0 (RATE_LIMITS 0) (.completed "Breach: z" "" 2)
        (.failedToStart "boom")).1.status = 200
  ∧ (email_search (some "a@b.c") 0 (RATE_LIMITS 0) (.completed "Breach: z" "" 2)
        (.failedToStart "boom")).1.success = true
  ∧ discover_subdomains (some "example.com") (.timedOut "" "") (.timedOut "" "") =
      { status := 200, success := true,
        results := some ⟨"example.com", [], [], []⟩, errorMsg := none }
  ∧ (email_search (some "a@b.c") 0 (RATE_LIMITS 0)
        (.timedOut "" "") (.failedToStart "boom")).1 =
      { status := 200, success := true, results := some ⟨"a@b.c", [], []⟩,
        errorMsg := none }
  ∧ calculate_risk_score ⟨[], []⟩ = 0
  ∧ (email_search (some "a@b.c") 0 (RATE_LIMITS 0) (.completed "Breach: z" "" 2)
        (.completed "Breach: z" "" 2)).1.results = some ⟨"a@b.c", [], []⟩ :=
  aggregation_all_failures_graceful "example.com" "a@b.c" (by decide) (by decide)
    0 (RATE_LIMITS 0) (.timedOut "" "") (.timedOut "" "")
    (.timedOut "" "") (.failedToStart "boom")
    (.completed "x.y\n" "" 2) (.timedOut "" "")
    (.completed "Breach: z" "" 2) (.failedToStart "boom")
    (by decide) (by decide) (by decide) (by decide)
    "Breach: z" "" 2 (by decide)

/-- Claim C5, counterexample: the claim says the score is 5 points per
distinct account match plus 20 per distinct breach event.  The code
scores list lengths without deduplication: a profile whose breach list
holds the same line twice scores 40, while the distinct-count formula of
the specification gives 20. -/
theorem risk_score_counts_duplicates :
    calculate_risk_score ⟨[], ["again", "again"]⟩ = 40
  ∧ riskScoreSpec ⟨[], ["again", "again"]⟩ = 20
  ∧ (40 : Nat) ≠ 20 :=
  ⟨by decide, by decide, by decide⟩

/-- Claim C5 as amended: the composite risk score is 5 points per entry
of the social-accounts list plus 20 points per entry of the breach list,
counting duplicates (no deduplication inside the scorer), clamped above
at 100 and never negative; it depends only on the two lists' lengths, so
it is deterministic and invariant under any permutation of either list
(hence under tool completion order). -/
theorem risk_score_formula_perm_invariant (r r' : ProfileResults)
    (ha : r.social_accounts.Perm r'.social_accounts)
    (hb : r.email_breaches.Perm r'.email_breaches) :
    calculate_risk_score r =
      min (r.social_accounts.length * 5 + r.email_breaches.length * 20) 100
  ∧ calculate_risk_score r ≤ 100
  ∧ calculate_risk_score r = calculate_risk_score r' := by
  refine ⟨rfl, Nat.min_le_right _ _, ?_⟩
  unfold calculate_risk_score
  rw [ha.length_eq, hb.length_eq]

/-- Witness for C5 at a concrete profile and a transposition of it. -/
theorem risk_score_formula_perm_invariant_witness :
    calculate_risk_score ⟨[⟨"p", "u", "n", "Found"⟩], ["a", "b"]⟩ =
      min (([⟨"p", "u", "n", "Found"⟩] : List AccountRec).length * 5 +
        (["a", "b"] : List String).length * 20) 100
  ∧ calculate_risk_score ⟨[⟨"p", "u", "n", "Found"⟩], ["a", "b"]⟩ ≤ 100
  ∧ calculate_risk_score ⟨[⟨"p", "u", "n", "Found"⟩], ["a", "b"]⟩ =
      calculate_risk_score ⟨[⟨"p", "u", "n", "Found"⟩], ["b", "a"]⟩ :=
  risk_score_formula_perm_invariant
    ⟨[⟨"p", "u", "n", "Found"⟩], ["a", "b"]⟩
    ⟨[⟨"p", "u", "n", "Found"⟩], ["b", "a"]⟩ (by decide) (by decide)

/-- Claim C6, counterexample: the claim says identifiers are lower-cased
before deduplication, so two records differing only in letter case never
both appear.  The code deduplicates by exact string equality of the
stripped lines: when subfinder prints `A.Example.com` and assetfinder
prints `a.example.com`, both survive into the combined list although they
are equal case-insensitively. -/
theorem combined_keeps_case_variants :
    (discover_subdomains (some "example.com") (.completed "A.Example.com\n" "" 0)
        (.completed "a.example.com\n" "" 0)).results =
      some ⟨"example.com", ["A.Example.com"], ["a.example.com"],
        ["A.Example.com", "a.example.com"]⟩
  ∧ lowerStr (trimStr "A.Example.com") = lowerStr (trimStr "a.example.com")
  ∧ "A.Example.com" ≠ "a.example.com" :=
  ⟨by decide, by decide, by decide⟩

/-- Claim C6 as amended: the combined record list contains no two equal
records — deduplication is by exact equality of the whitespace-trimmed
lines, with no lower-casing — and it is exactly the union of the two
tools' line lists. -/
theorem combined_exact_dedup (l1 l2 : List String) (x : String) :
    (combineSubdomains l1 l2).Nodup
  ∧ (x ∈ combineSubdomains l1 l2 ↔ x ∈ l1 ∨ x ∈ l2) :=
  ⟨combineSubdomains_nodup l1 l2, mem_combineSubdomains x l1 l2⟩

/-- Claim C7: stdout is split into lines, blank lines and lines without a
dot are dropped, survivors are trimmed, and the combined result is the
deduplicated union; on the spec's scenario (enumA prints a.example.com,
noise, b.example.com; enumB prints b.example.com) the merged list is
exactly a.example.com and b.example.com. -/
theorem subdomain_merge_scenario (s1 s2 x : String) :
    (discover_subdomains (some "example.com")
        (.completed "a.example.com\nnoise\nb.example.com" "" 0)
        (.completed "b.example.com" "" 0)).results =
      some ⟨"example.com", ["a.example.com", "b.example.com"],
        ["b.example.com"], ["a.example.com", "b.example.com"]⟩
  ∧ parseLines "a.example.com\nnoise\nb.example.com" =
      ["a.example.com", "b.example.com"]
  ∧ (x ∈ combineSubdomains (parseLines s1) (parseLines s2) ↔
      x ∈ parseLines s1 ∨ x ∈ parseLines s2) :=
  ⟨by decide, by decide, mem_combineSubdomains x _ _⟩

/-- An allowed check stores the windowed entry with its counter bumped by
exactly one. -/
lemma checkLimit_allowed (now : Nat) (l : RateLimit)
    (h : (checkLimit now l).1 = true) :
    (checkLimit now l).2 = ⟨(windowedLimit now l).calls + 1,
      (windowedLimit now l).maxCalls, (windowedLimit now l).resetTime⟩ := by
  by_cases hle : (windowedLimit now l).maxCalls ≤ (windowedLimit now l).calls
  · simp [checkLimit, hle] at h
  · simp [checkLimit, hle]

/-- A denied check (positive budget) stores the entry back unchanged:
denial can only happen when no window reset was due. -/
lemma checkLimit_denied (now : Nat) (l : RateLimit) (hm : 0 < l.maxCalls)
    (h : (checkLimit now l).1 = false) : (checkLimit now l).2 = l := by
  by_cases hr : l.resetTime < now
  · have hw : windowedLimit now l = ⟨0, l.maxCalls, now + 3600⟩ := by
      simp [windowedLimit, hr]
    have : (checkLimit now l).1 = true := by
      simp [checkLimit, hw, Nat.not_le.mpr hm]
    simp [this] at h
  · have hw : windowedLimit now l = l := by simp [windowedLimit, hr]
    by_cases hle : l.maxCalls ≤ l.calls
    · simp [checkLimit, hw, hle]
    · simp [checkLimit, hw, hle] at h

/-- Claim C8, counterexample: the claim says a request whose parameters
lack a required placeholder fails with HTTP status 400.  It does fail
before any process is spawned, but through the generic exception handler
with status 500: executing subfinder with no parameters answers 500 with
the `KeyError` text naming `domain`, and 500 is not 400. -/
theorem missing_param_returns_500 :
    executeToolA "subfinder" [] (.completed "" "" 0) =
      { status := 500, success := false, command := none, output := none,
        errorMsg := some "domain", parsed_output := none, returncode := none,
        spawned := false }
  ∧ (500 : Nat) ≠ 400 :=
  ⟨by decide, by decide⟩

/-- Claim C8 as amended: a direct tool execution request whose parameters
lack a placeholder required by the tool's argument template fails before
any external process is started, with an error naming the missing key —
but with HTTP status 500 (the `KeyError` escapes into the generic
exception handler), not 400. -/
theorem missing_param_before_spawn (tool cmd : String) (tmpl : List TPart)
    (data : List (String × String)) (key : String) (o : ProcOutcome)
    (hl : TOOLS.lookup tool = some (cmd, tmpl))
    (hk : formatTemplate tmpl data = .error key) :
    executeToolA tool data o =
      { status := 500, success := false, command := none, output := none,
        errorMsg := some key, parsed_output := none, returncode := none,
        spawned := false } := by
  simp [executeToolA, hl, hk]

/-- Witness for C8: subfinder invoked with a request body that carries
only a stray timeout value and no domain. -/
theorem missing_param_before_spawn_witness :
    executeToolA "subfinder" [("timeout", "60")] (.completed "" "" 0) =
      { status := 500, success := false, command := none, output := none,
        errorMsg := some "domain", parsed_output := none, returncode := none,
        spawned := false } :=
  missing_param_before_spawn "subfinder" "subfinder"
    [.lit "-d ", .var "domain", .lit " -silent"] [("timeout", "60")] "domain"
    (.completed "" "" 0) (by rfl) (by rfl)

/-- Claim C9: a tool name with no entry in the rate-limit table is always
allowed and no counter is touched; "phoneinfoga", which the phone-search
endpoint checks, has no entry in the startup table, so a valid phone
search never answers 429 and leaves the table unchanged — unbounded
calls. -/
theorem unknown_tool_unlimited (tool : String) (table : RateTable) (now : Nat)
    (h : table.lookup tool = none) (p : String) (hp : p ≠ "")
    (t0 now2 : Nat) (o : ProcOutcome) :
    check_rate_limit now tool table = (true, table)
  ∧ (RATE_LIMITS t0).lookup "phoneinfoga" = none
  ∧ (phone_search (some p) now2 (RATE_LIMITS t0) o).1.status ≠ 429
  ∧ (phone_search (some p) now2 (RATE_LIMITS t0) o).2 = RATE_LIMITS t0 := by
  have hpl : (RATE_LIMITS t0).lookup "phoneinfoga" = none := rfl
  have hc : check_rate_limit now2 "phoneinfoga" (RATE_LIMITS t0) =
      (true, RATE_LIMITS t0) := by
    simp [check_rate_limit, hpl]
  refine ⟨by simp [check_rate_limit, h], hpl, ?_, ?_⟩
  · cases o with
    | completed out err rc =>
        by_cases hrc : rc = 0 <;> simp [phone_search, if_neg hp, hc, hrc]
    | timedOut a b => simp [phone_search, if_neg hp, hc]
    | failedToStart m => simp [phone_search, if_neg hp, hc]
  · cases o with
    | completed out err rc =>
        by_cases hrc : rc = 0 <;> simp [phone_search, if_neg hp, hc, hrc]
    | timedOut a b => simp [phone_search, if_neg hp, hc]
    | failedToStart m => simp [phone_search, if_neg hp, hc]

/-- Witness for C9: phoneinfoga against the startup table. -/
theorem unknown_tool_unlimited_witness :
    check_rate_limit 5 "phoneinfoga" (RATE_LIMITS 0) = (true, RATE_LIMITS 0)
  ∧ (RATE_LIMITS 0).lookup "phoneinfoga" = none
  ∧ (phone_search (some "5551234") 7 (RATE_LIMITS 0)
        (.completed "carrier data" "" 0)).1.status ≠ 429
  ∧ (phone_search (some "5551234") 7 (RATE_LIMITS 0)
        (.completed "carrier data" "" 0)).2 = RATE_LIMITS 0 :=
  unknown_tool_unlimited "phoneinfoga" (RATE_LIMITS 0) 5 (by rfl) "5551234"
    (by decide) 0 7 (.completed "carrier data" "" 0)

/-- Claim C10: an allowed check bumps that tool's counter by exactly one
(from the post-reset value in general, from the previous value whenever
the window had not expired), a denied check (positive budget) leaves
counter and reset time unchanged, no other tool's entry is ever touched,
and the increment happens before the external process is invoked: the
table state after `execute_tool` or `email_search` equals the state right
after the rate check, whatever the process outcome (budget consumed even
on failure or timeout). -/
theorem rate_limit_frame_and_consumption
    (now : Nat) (lA : RateLimit) (hA : (checkLimit now lA).1 = true)
    (hAr : ¬ lA.resetTime < now)
    (lD : RateLimit) (hDm : 0 < lD.maxCalls) (hD : (checkLimit now lD).1 = false)
    (tool other : String) (hne : other ≠ tool) (table : RateTable)
    (toolName pth args : String) (hp : PEOPLE_TOOLS.lookup toolName = some pth)
    (now2 : Nat) (t2 : RateTable) (o o' : ProcOutcome)
    (e : String) (he : e ≠ "") :
    (checkLimit now lA).2.calls = (windowedLimit now lA).calls + 1
  ∧ (checkLimit now lA).2 = ⟨lA.calls + 1, lA.maxCalls, lA.resetTime⟩
  ∧ (checkLimit now lD).2 = lD
  ∧ (check_rate_limit now tool table).2.lookup other = table.lookup other
  ∧ (executeToolP toolName args now2 t2 o).2.1 =
      (check_rate_limit now2 toolName t2).2
  ∧ (executeToolP toolName args now2 t2 o).2.1 =
      (executeToolP toolName args now2 t2 o').2.1
  ∧ (email_search (some e) now2 t2 o o').2 =
      (check_rate_limit now2 "holehe" (check_rate_limit now2 "h8mail" t2).2).2 := by
  have hw : windowedLimit now lA = lA := by simp [windowedLimit, hAr]
  have hexec : ∀ oo : ProcOutcome, (executeToolP toolName args now2 t2 oo).2.1 =
      (check_rate_limit now2 toolName t2).2 := by
    intro oo
    simp only [executeToolP, hp]
    split
    · cases oo with
      | completed out err rc => by_cases hrc : rc = 0 <;> simp [hrc]
      | timedOut a b => rfl
      | failedToStart m => rfl
    · rfl
  refine ⟨?_, ?_, checkLimit_denied now lD hDm hD, ?_, hexec o,
    (hexec o).trans (hexec o').symm, ?_⟩
  · rw [checkLimit_allowed now lA hA]
  · rw [checkLimit_allowed now lA hA, hw]
  · unfold check_rate_limit
    cases hlt : table.lookup tool with
    | none => simp
    | some l0 => simpa using lookup_setEntry_ne (checkLimit now l0).2 hne table
  · simp only [email_search, if_neg he]

/-- Witness for C10: an in-window allowed entry, an exhausted entry, the
h8mail/holehe pair on the startup table, and sherlock's direct
execution under two different outcomes. -/
theorem rate_limit_frame_and_consumption_witness :
    (checkLimit 50 ⟨3, 9, 100⟩).2.calls = (windowedLimit 50 ⟨3, 9, 100⟩).calls + 1
  ∧ (checkLimit 50 ⟨3, 9, 100⟩).2 = ⟨3 + 1, 9, 100⟩
  ∧ (checkLimit 50 ⟨9, 9, 100⟩).2 = ⟨9, 9, 100⟩
  ∧ (check_rate_limit 50 "h8mail" (RATE_LIMITS 0)).2.lookup "holehe" =
      (RATE_LIMITS 0).lookup "holehe"
  ∧ (executeToolP "sherlock" "" 0 (RATE_LIMITS 0) (.completed "hit" "" 0)).2.1 =
      (check_rate_limit 0 "sherlock" (RATE_LIMITS 0)).2
  ∧ (executeToolP "sherlock" "" 0 (RATE_LIMITS 0) (.completed "hit" "" 0)).2.1 =
      (executeToolP "sherlock" "" 0 (RATE_LIMITS 0) (.timedOut "" "")).2.1
  ∧ (email_search (some "a@b.c") 0 (RATE_LIMITS 0) (.completed "hit" "" 0)
        (.timedOut "" "")).2 =
      (check_rate_limit 0 "holehe" (check_rate_limit 0 "h8mail" (RATE_LIMITS 0)).2).2 :=
  rate_limit_frame_and_consumption 50 ⟨3, 9, 100⟩ (by decide) (by decide)
    ⟨9, 9, 100⟩ (by decide) (by decide) "h8mail" "holehe" (by decide)
    (RATE_LIMITS 0) "sherlock" "/opt/people-osint/sherlock_wrapper.sh" ""
    (by rfl) 0 (RATE_LIMITS 0) (.completed "hit" "" 0) (.timedOut "" "")
    "a@b.c" (by decide)

end FoundMe
